import Mathlib

set_option maxHeartbeats 1000000

/-!
Shallow embedding of the three order-submission scripts of this repository
(src/unnamed/part_000: direct EOA path with selfPermit + multicall;
src/unnamed/part_001: sponsored smart-account path;
src/smart_account.ts: sponsored smart-account path with a SENT_STOCKS switch).

Modelling conventions:
  - JavaScript BigInt values and integer-valued numbers become Nat (Int where a
    subtraction may go negative, as in the precision error message).
  - External calls (chain reads, the fee-quote service, the wallet signer, the
    bundler) become oracle fields of an environment structure; a run of a script
    is the pure function of that environment.
  - Thrown exceptions become Except; a caught exception (try/catch) becomes a
    value stored in the output instead of an error.
  - process exit codes are modelled by the Exit functions: 0 when main resolves,
    1 when it rejects, exactly as the main().then(exit 0).catch(exit 1) trailers.
  - calldata produced by encodeFunctionData becomes the Call inductive, keeping
    the function name and argument values.
  - The IEEE-754 double computation 0.1 * 10 ** 18 in sendToken is modelled over
    the rationals: double01 is the double nearest to 0.1, and rounding the exact
    product to the nearest representable double (spacing 16 in that binade) is
    roundToMultiple 16.
-/

deriving instance DecidableEq for Except

namespace Scripts

/-- Observable side effects of the scripts that the claims talk about. -/
inductive Effect where
  | readDecimalReduction
  | readDecimals
  | quoteRequest
  | sendUserOperation
  | waitUserOpReceipt (timeoutMs : Nat)
  | getTransactionReceipt
  | readOrderStatus
deriving Repr, DecidableEq

/-- A receipt log entry: emitting address, topics, and the decoded argument
values that interface.parseLog would return for it. -/
structure Log where
  address : String
  topics : List String
  args : List Nat
deriving Repr, DecidableEq

/-- The order parameter object returned by configureOrder in all three scripts. -/
structure OrderParams where
  requestTimestamp : Nat
  recipient : String
  assetToken : String
  paymentToken : String
  sell : Bool
  orderType : Nat
  assetTokenQuantity : Nat
  paymentTokenQuantity : Nat
  price : Nat
  tif : Nat
deriving Repr, DecidableEq

/-- The fee_quote object of the pricing-service response. -/
structure FeeQuoteTuple where
  orderId : Nat
  requester : String
  fee : Nat
  timestamp : Nat
  deadline : Nat
deriving Repr, DecidableEq

/-- The full pricing-service response body. -/
structure FeeQuoteResponse where
  fee_quote : FeeQuoteTuple
  fee_quote_signature : String
deriving Repr, DecidableEq

/-- The error thrown by validateSellOrderPrecision, carrying the maximum
allowed decimals named in its message. -/
structure PrecisionError where
  maxDecimals : Int
deriving Repr, DecidableEq

/-- Encoded calldata, keeping the function selector and argument values. -/
inductive Call where
  | selfPermit (token owner : String) (value deadline v r s : Nat)
  | createOrder (order : OrderParams) (quote : FeeQuoteTuple) (quoteSignature : String)
  | approve (spender : String) (amount : Nat)
  | transfer (recipient : String) (amount : Nat)
deriving Repr, DecidableEq

/-- A call is a spend authorization when it is a selfPermit or an approve. -/
def Call.isSpendAuthorization : Call → Bool
  | Call.selfPermit _ _ _ _ _ _ _ => true
  | Call.approve _ _ => true
  | _ => false

/-- A call is an order creation when it is a createOrder. -/
def Call.isCreateOrder : Call → Bool
  | Call.createOrder _ _ _ => true
  | _ => false

/-- The value argument carried by a selfPermit call, if any. -/
def Call.permitValue : Call → Option Nat
  | Call.selfPermit _ _ value _ _ _ _ => some value
  | _ => none

/-- One entry of a sponsored batch: target address (the field named to in the
source), calldata, native value. -/
structure Txn where
  toAddr : String
  data : Call
  value : Nat
deriving Repr, DecidableEq

/-- The event topic returned by interface.getEventTopic, modelled by the
event name (the topic hash is injective in the event signature). -/
def orderCreatedTopic : String := "OrderCreated"

/-- validateSellOrderPrecision (identical in all three scripts): reads the
processor allowed decimal reduction for the asset, computes
10 ** allowedDecimalReduction, and rejects an order amount that is not
divisible by it, reading the asset decimals to name the maximum allowed
decimals in the error.  The first component is the trace of chain reads. -/
def validateSellOrderPrecision (allowedDecimalReduction assetTokenDecimals orderAmount : Nat) :
    List Effect × Except PrecisionError Unit :=
  let allowablePrecisionReduction := 10 ^ allowedDecimalReduction
  if orderAmount % allowablePrecisionReduction ≠ 0 then
    ([Effect.readDecimalReduction, Effect.readDecimals],
      Except.error { maxDecimals := (assetTokenDecimals : Int) - (allowedDecimalReduction : Int) })
  else
    ([Effect.readDecimalReduction], Except.ok ())

/-- configureOrder of src/unnamed/part_000: a hardcoded buy of 1 USDC
(1000000 of the payment token), market order, no limit price, tif 1.
The two trailing Nat arguments are the chain values validateSellOrderPrecision
would read, mirroring the contracts being passed in. -/
def configureOrder000 (signerAddress assetTokenAddress paymentTokenAddress : String)
    (requestTimestampNow orderDecimalReductionOracle assetTokenDecimalsOracle : Nat) :
    List Effect × Except PrecisionError OrderParams :=
  let orderAmount : Nat := 1000000
  let sellOrder : Bool := false
  let orderType : Nat := 0
  let limitPrice : Nat := 0
  let validation :=
    if sellOrder then
      validateSellOrderPrecision orderDecimalReductionOracle assetTokenDecimalsOracle orderAmount
    else ([], Except.ok ())
  (validation.1,
    validation.2.map (fun _ =>
      { requestTimestamp := requestTimestampNow
        recipient := signerAddress
        assetToken := assetTokenAddress
        paymentToken := paymentTokenAddress
        sell := sellOrder
        orderType := orderType
        assetTokenQuantity := 0
        paymentTokenQuantity := orderAmount
        price := limitPrice
        tif := 1 }))

/-- configureOrder of src/unnamed/part_001: identical to part_000 except that
the recipient is the smart-account address passed in. -/
def configureOrder001 (recipientAddress assetTokenAddress paymentTokenAddress : String)
    (requestTimestampNow orderDecimalReductionOracle assetTokenDecimalsOracle : Nat) :
    List Effect × Except PrecisionError OrderParams :=
  let orderAmount : Nat := 1000000
  let sellOrder : Bool := false
  let orderType : Nat := 0
  let limitPrice : Nat := 0
  let validation :=
    if sellOrder then
      validateSellOrderPrecision orderDecimalReductionOracle assetTokenDecimalsOracle orderAmount
    else ([], Except.ok ())
  (validation.1,
    validation.2.map (fun _ =>
      { requestTimestamp := requestTimestampNow
        recipient := recipientAddress
        assetToken := assetTokenAddress
        paymentToken := paymentTokenAddress
        sell := sellOrder
        orderType := orderType
        assetTokenQuantity := 0
        paymentTokenQuantity := orderAmount
        price := limitPrice
        tif := 1 }))

/-- Hardcoded stock addresses of src/smart_account.ts. -/
def STOCK_APPLE : String := "0xD771a71E5bb303da787b4ba2ce559e39dc6eD85c"

/-- NVIDIA stock address of src/smart_account.ts. -/
def STOCK_NVIDIA : String := "0x4B47153A241b9d22ae37c2aAEe7A6519fF2Dbfc6"

/-- Destination wallet constant of src/smart_account.ts. -/
def ISAAC_MAIN_WALLET : String := "0x02C48c159FDfc1fC18BA0323D67061dE1dEA329F"

/-- ASSET_TOKEN_ADDRESS constant of src/smart_account.ts. -/
def ASSET_TOKEN_ADDRESS : String := STOCK_NVIDIA

/-- SENT_STOCKS compile-time flag of src/smart_account.ts, true in the source. -/
def SENT_STOCKS : Bool := true

/-- configureOrder of src/smart_account.ts: the amount is a parameter
(default 100 * 10 ** 6 at the call site in main), the asset token is the
ASSET_TOKEN_ADDRESS constant. -/
def configureOrderSmart (recipientAddress paymentTokenAddress : String)
    (amount requestTimestampNow orderDecimalReductionOracle assetTokenDecimalsOracle : Nat) :
    List Effect × Except PrecisionError OrderParams :=
  let orderAmount : Nat := amount
  let sellOrder : Bool := false
  let orderType : Nat := 0
  let limitPrice : Nat := 0
  let validation :=
    if sellOrder then
      validateSellOrderPrecision orderDecimalReductionOracle assetTokenDecimalsOracle orderAmount
    else ([], Except.ok ())
  (validation.1,
    validation.2.map (fun _ =>
      { requestTimestamp := requestTimestampNow
        recipient := recipientAddress
        assetToken := ASSET_TOKEN_ADDRESS
        paymentToken := paymentTokenAddress
        sell := sellOrder
        orderType := orderType
        assetTokenQuantity := 0
        paymentTokenQuantity := orderAmount
        price := limitPrice
        tif := 1 }))

/-- The split (v, r, s) signature returned by splitSignature. -/
structure SplitSignature where
  v : Nat
  r : Nat
  s : Nat
deriving Repr, DecidableEq

/-- The EIP-712 permit domain built by configurePermit. -/
structure PermitDomain where
  name : String
  version : String
  chainId : Nat
  verifyingContract : String
deriving Repr, DecidableEq

/-- The EIP-2612 permit message built by configurePermit. -/
structure PermitMessage where
  owner : String
  spender : String
  value : Nat
  nonce : Nat
  deadline : Nat
deriving Repr, DecidableEq

/-- getContractVersion: probe the version accessor, defaulting to the string
one on failure; the probe failure is swallowed, never propagated. -/
def getContractVersion (versionProbe : Option String) : String :=
  versionProbe.getD ("1")

/-- Errors part_000 main can reject with in this model. -/
inductive MainErr where
  | precisionExceeded (maxDecimals : Int)
  | noBlockTime
  | noOrderEvent
deriving Repr, DecidableEq

/-- Environment of src/unnamed/part_000: configuration plus every value an
external system hands the script during the run. -/
structure Env000 where
  signerAddress : String
  assetTokenAddress : String
  paymentTokenAddress : String
  orderProcessorAddress : String
  chainId : Nat
  requestTimestampNow : Nat
  orderDecimalReduction : Nat
  assetTokenDecimals : Nat
  feeQuote : FeeQuoteResponse
  nonce : Nat
  blockTime : Option Nat
  paymentTokenName : String
  paymentTokenVersionProbe : Option String
  signTypedData : PermitDomain → PermitMessage → SplitSignature
  receiptLogs : List Log
  orderStatusOf : Nat → Nat

/-- configurePermit of src/unnamed/part_000: reads the nonce, block time,
token name, version and chain id, sets deadline = blockTime + 60 * 5, and
builds the domain and message with value = totalSpendAmount. -/
def configurePermit (env : Env000) (totalSpendAmount : Nat) :
    Except MainErr (PermitDomain × PermitMessage) :=
  match env.blockTime with
  | none => Except.error MainErr.noBlockTime
  | some blockTime =>
    let deadline := blockTime + 60 * 5
    Except.ok
      ({ name := env.paymentTokenName
         version := getContractVersion env.paymentTokenVersionProbe
         chainId := env.chainId
         verifyingContract := env.paymentTokenAddress },
       { owner := env.signerAddress
         spender := env.orderProcessorAddress
         value := totalSpendAmount
         nonce := env.nonce
         deadline := deadline })

/-- The topic filter of the direct path: first topic equals the OrderCreated
topic; the emitting address is not inspected. -/
def directTopicMatch (l : Log) : Bool :=
  l.topics.head? == some orderCreatedTopic

/-- The event extraction of part_000 main: filter logs by topic, parse each,
take the first; throw when there is none. -/
def parseOrderCreated000 (logs : List Log) : Except MainErr (Nat × Nat) :=
  match ((logs.filter directTopicMatch).map (fun l => l.args)).head? with
  | none => Except.error MainErr.noOrderEvent
  | some args => Except.ok (args.getD 0 0, args.getD 1 0)

/-- Everything part_000 main has produced when it resolves. -/
structure Main000Out where
  orderParams : OrderParams
  fees : Nat
  totalSpendAmount : Nat
  permitDomain : PermitDomain
  permitMessage : PermitMessage
  permitSignature : SplitSignature
  selfPermitData : Call
  multicallBatch : List Call
  orderId : Nat
  orderAccount : Nat
  orderStatus : Nat
deriving Repr, DecidableEq

/-- main of src/unnamed/part_000: configure order, fee quote, total spend,
permit, selfPermit calldata, multicall batch of the two calls, then parse the
OrderCreated event of the receipt and read the order status. -/
def part000Main (env : Env000) : Except MainErr Main000Out :=
  match (configureOrder000 env.signerAddress env.assetTokenAddress env.paymentTokenAddress
      env.requestTimestampNow env.orderDecimalReduction env.assetTokenDecimals).2 with
  | Except.error e => Except.error (MainErr.precisionExceeded e.maxDecimals)
  | Except.ok orderParams =>
    let fees := env.feeQuote.fee_quote.fee
    let totalSpendAmount := orderParams.paymentTokenQuantity + fees
    match configurePermit env totalSpendAmount with
    | Except.error e => Except.error e
    | Except.ok (permitDomain, permitMessage) =>
      let permitSignature := env.signTypedData permitDomain permitMessage
      let selfPermitData := Call.selfPermit env.paymentTokenAddress permitMessage.owner
        permitMessage.value permitMessage.deadline permitSignature.v permitSignature.r
        permitSignature.s
      let requestOrderData := Call.createOrder orderParams env.feeQuote.fee_quote
        env.feeQuote.fee_quote_signature
      let multicallBatch := [selfPermitData, requestOrderData]
      match parseOrderCreated000 env.receiptLogs with
      | Except.error e => Except.error e
      | Except.ok (orderId, orderAccount) =>
        Except.ok
          { orderParams := orderParams
            fees := fees
            totalSpendAmount := totalSpendAmount
            permitDomain := permitDomain
            permitMessage := permitMessage
            permitSignature := permitSignature
            selfPermitData := selfPermitData
            multicallBatch := multicallBatch
            orderId := orderId
            orderAccount := orderAccount
            orderStatus := env.orderStatusOf orderId }

/-- Process exit code of part_000: main().then(exit 0).catch(exit 1). -/
def part000Exit (env : Env000) : Nat :=
  match part000Main env with
  | Except.ok _ => 0
  | Except.error _ => 1

/-- The user-operation receipt returned by the bundler. -/
structure UserOpReceipt where
  transactionHash : String
deriving Repr, DecidableEq

/-- The chain transaction receipt returned by the public client. -/
structure TxReceipt where
  logs : List Log
deriving Repr, DecidableEq

/-- Errors of the sponsored execution path. -/
inductive ExecErr where
  | sendFailed (msg : String)
  | timeoutError
  | rpcError (msg : String)
deriving Repr, DecidableEq

/-- Oracle for the sponsored path: outcome of sendTransactions, of
waitForUserOperationReceipt as a function of the timeout passed, of
getTransactionReceipt as a function of the hash, and of getOrderStatus. -/
structure BundlerOracle where
  sendResult : Except ExecErr String
  waitResult : Nat → Except ExecErr UserOpReceipt
  txReceiptFor : String → Except ExecErr TxReceipt
  orderStatusOf : Nat → Nat

/-- Outcome of the sponsored executeOrderTransaction: either the decoded
OrderCreated event with the queried status, or the no-event branch that only
logs a message and returns normally. -/
inductive ExecOutcome where
  | parsed (orderId orderAccount status : Nat)
  | noEventFound
deriving Repr, DecidableEq

/-- The log search of the sponsored path: first log whose lowercased address
equals the lowercased processor address and whose first topic is the
OrderCreated topic. -/
def findOrderCreatedLog (logs : List Log) (processorAddress : String) : Option Log :=
  logs.find? (fun l =>
    l.address.toLower == processorAddress.toLower &&
      l.topics.head? == some orderCreatedTopic)

/-- executeOrderTransaction (identical in part_001 and smart_account.ts):
send the batch, wait for the user-operation receipt with timeout 60000 ms,
cross-reference the chain transaction receipt, then look for the OrderCreated
log; when found, decode it and read the order status; when absent, log a
message and return normally.  The first component is the effect trace. -/
def executeOrderTransaction (oracle : BundlerOracle) (transactions : List Txn)
    (processorAddress : String) : List Effect × Except ExecErr ExecOutcome :=
  match oracle.sendResult with
  | Except.error e => ([Effect.sendUserOperation], Except.error e)
  | Except.ok _ =>
    match oracle.waitResult 60000 with
    | Except.error e =>
      ([Effect.sendUserOperation, Effect.waitUserOpReceipt 60000], Except.error e)
    | Except.ok receipt =>
      match oracle.txReceiptFor receipt.transactionHash with
      | Except.error e =>
        ([Effect.sendUserOperation, Effect.waitUserOpReceipt 60000,
          Effect.getTransactionReceipt], Except.error e)
      | Except.ok txReceipt =>
        match findOrderCreatedLog txReceipt.logs processorAddress with
        | some l =>
          ([Effect.sendUserOperation, Effect.waitUserOpReceipt 60000,
            Effect.getTransactionReceipt, Effect.readOrderStatus],
            Except.ok (ExecOutcome.parsed (l.args.getD 0 0) (l.args.getD 1 0)
              (oracle.orderStatusOf (l.args.getD 0 0))))
        | none =>
          ([Effect.sendUserOperation, Effect.waitUserOpReceipt 60000,
            Effect.getTransactionReceipt], Except.ok ExecOutcome.noEventFound)

/-- Environment of src/unnamed/part_001. -/
structure Env001 where
  smartAccountAddress : String
  assetTokenAddress : String
  paymentTokenAddress : String
  orderProcessorAddress : String
  chainId : Nat
  requestTimestampNow : Nat
  orderDecimalReduction : Nat
  assetTokenDecimals : Nat
  quoteResult : Except String FeeQuoteResponse
  oracle : BundlerOracle

/-- Everything part_001 main has produced when it resolves; the caught
try-block result is stored, not rethrown. -/
structure Main001Out where
  orderParams : OrderParams
  fees : Nat
  totalSpendAmount : Nat
  transactions : List Txn
  executeResult : List Effect × Except ExecErr ExecOutcome
deriving Repr, DecidableEq

/-- main of src/unnamed/part_001: configure order, fee quote, total spend,
approve + createOrder batch, then executeOrderTransaction inside a try/catch
whose catch only logs the error and falls through to a normal return. -/
def part001Main (env : Env001) : Except String Main001Out :=
  match (configureOrder001 env.smartAccountAddress env.assetTokenAddress env.paymentTokenAddress
      env.requestTimestampNow env.orderDecimalReduction env.assetTokenDecimals).2 with
  | Except.error _ => Except.error ("Order amount precision exceeds max decimals")
  | Except.ok orderParams =>
    match env.quoteResult with
    | Except.error e => Except.error e
    | Except.ok feeQuoteResponse =>
      let fees := feeQuoteResponse.fee_quote.fee
      let totalSpendAmount := orderParams.paymentTokenQuantity + fees
      let approvalData := Call.approve env.orderProcessorAddress totalSpendAmount
      let createOrderData := Call.createOrder orderParams feeQuoteResponse.fee_quote
        feeQuoteResponse.fee_quote_signature
      let transactions : List Txn :=
        [ { toAddr := env.paymentTokenAddress, data := approvalData, value := 0 },
          { toAddr := env.orderProcessorAddress, data := createOrderData, value := 0 } ]
      let executeResult := executeOrderTransaction env.oracle transactions
        env.orderProcessorAddress
      Except.ok
        { orderParams := orderParams
          fees := fees
          totalSpendAmount := totalSpendAmount
          transactions := transactions
          executeResult := executeResult }

/-- Process exit code of part_001: main().then(exit 0).catch(exit 1). -/
def part001Exit (env : Env001) : Nat :=
  match part001Main env with
  | Except.ok _ => 0
  | Except.error _ => 1

/-- The IEEE-754 double nearest to 0.1, as an exact rational:
3602879701896397 / 2 ^ 55. -/
def double01 : ℚ := 3602879701896397 / 2 ^ 55

/-- Round a rational to the nearest multiple of step (ties upward; the value
rounded below is not a tie), modelling rounding to the nearest representable
double whose binade has spacing step. -/
def roundToMultiple (step x : ℚ) : ℚ := step * ((⌊x / step + 1 / 2⌋ : ℤ) : ℚ)

/-- The exact real value of the double product 0.1 * 10 ** 18 before rounding:
double01 * 10 ^ 18.  It is not an integer. -/
def sendTokenAmountExact : ℚ := double01 * 10 ^ 18

/-- The double value of 0.1 * 10 ** 18: the exact product rounded to the
nearest representable double; the spacing of doubles in [2 ^ 56, 2 ^ 57) is
16. -/
def sendTokenAmountDouble : ℚ := roundToMultiple 16 sendTokenAmountExact

/-- The BigInt obtained from BigInt(0.1 * 10 ** 18) in sendToken of
src/smart_account.ts: the double value is the exact integer 10 ^ 17. -/
def sendTokenAmount : Nat := 100000000000000000

/-- sendToken of src/smart_account.ts: a two-call batch against the asset
argument, approve(asset, amount) then transfer(to, amount); note that the
approve spender argument is the asset address itself, as in the source. -/
def sendTokenBatch (asset recipientAddr : String) : List Txn :=
  let tokenAmount := sendTokenAmount
  [ { toAddr := asset, data := Call.approve asset tokenAmount, value := 0 },
    { toAddr := asset, data := Call.transfer recipientAddr tokenAmount, value := 0 } ]

/-- createOrder of src/smart_account.ts: the approve + createOrder batch of
the sponsored path. -/
def createOrderBatch (orderProcessorAddress paymentTokenAddress : String)
    (orderParams : OrderParams) (feeQuoteResponse : FeeQuoteResponse)
    (totalSpendAmount : Nat) : List Txn :=
  [ { toAddr := paymentTokenAddress,
      data := Call.approve orderProcessorAddress totalSpendAmount, value := 0 },
    { toAddr := orderProcessorAddress,
      data := Call.createOrder orderParams feeQuoteResponse.fee_quote
        feeQuoteResponse.fee_quote_signature,
      value := 0 } ]

/-- Environment of src/smart_account.ts. -/
structure EnvSmart where
  smartAccountAddress : String
  paymentTokenAddress : String
  orderProcessorAddress : String
  chainId : Nat
  requestTimestampNow : Nat
  orderDecimalReduction : Nat
  assetTokenDecimals : Nat
  quoteResult : Except String FeeQuoteResponse
  oracle : BundlerOracle
  sendTokenHashResult : Except ExecErr String

/-- Everything smart_account main has produced when it resolves. -/
structure SmartMainOut where
  orderParams : OrderParams
  fees : Nat
  totalSpendAmount : Nat
  sentStocksTaken : Bool
  submittedBatch : List Txn
  sendTokenResult : Option (Except ExecErr String)
  execOutcome : Option (List Effect × Except ExecErr ExecOutcome)
deriving Repr, DecidableEq

/-- main of src/smart_account.ts: configure order, fee quote, total spend,
then a try/catch that runs sendToken when SENT_STOCKS and createOrder
otherwise; the catch only logs, so either branch outcome is stored and main
resolves. -/
def smartMain (env : EnvSmart) : Except String SmartMainOut :=
  match (configureOrderSmart env.smartAccountAddress env.paymentTokenAddress
      100000000 env.requestTimestampNow env.orderDecimalReduction env.assetTokenDecimals).2 with
  | Except.error _ => Except.error ("Order amount precision exceeds max decimals")
  | Except.ok orderParams =>
    match env.quoteResult with
    | Except.error e => Except.error e
    | Except.ok feeQuoteResponse =>
      let fees := feeQuoteResponse.fee_quote.fee
      let totalSpendAmount := orderParams.paymentTokenQuantity + fees
      if SENT_STOCKS then
        let batch := sendTokenBatch STOCK_APPLE ISAAC_MAIN_WALLET
        Except.ok
          { orderParams := orderParams
            fees := fees
            totalSpendAmount := totalSpendAmount
            sentStocksTaken := true
            submittedBatch := batch
            sendTokenResult := some env.sendTokenHashResult
            execOutcome := none }
      else
        let batch := createOrderBatch env.orderProcessorAddress env.paymentTokenAddress
          orderParams feeQuoteResponse totalSpendAmount
        Except.ok
          { orderParams := orderParams
            fees := fees
            totalSpendAmount := totalSpendAmount
            sentStocksTaken := false
            submittedBatch := batch
            sendTokenResult := none
            execOutcome := some (executeOrderTransaction env.oracle batch
              env.orderProcessorAddress) }

/-- Process exit code of smart_account.ts: main().then(exit 0).catch(exit 1). -/
def smartExit (env : EnvSmart) : Nat :=
  match smartMain env with
  | Except.ok _ => 0
  | Except.error _ => 1

/-- A concrete order-parameter record used to instantiate theorems. -/
def paramsW : OrderParams :=
  { requestTimestamp := 1700000000
    recipient := "0xSigner"
    assetToken := "0xAsset"
    paymentToken := "0xPay"
    sell := false
    orderType := 0
    assetTokenQuantity := 0
    paymentTokenQuantity := 1000000
    price := 0
    tif := 1 }

/-- A concrete fee-quote response used to instantiate environments. -/
def quoteW : FeeQuoteResponse :=
  { fee_quote :=
      { orderId := 1
        requester := "0xReq"
        fee := 2500
        timestamp := 1700000000
        deadline := 1700000300 }
    fee_quote_signature := "0xQuoteSig" }

/-- A concrete part_000 environment whose run resolves. -/
def envW000 : Env000 :=
  { signerAddress := "0xSigner"
    assetTokenAddress := "0xAsset"
    paymentTokenAddress := "0xPay"
    orderProcessorAddress := "0xProc"
    chainId := 11155111
    requestTimestampNow := 1700000000
    orderDecimalReduction := 0
    assetTokenDecimals := 18
    feeQuote := quoteW
    nonce := 7
    blockTime := some 1700000100
    paymentTokenName := "USD Coin"
    paymentTokenVersionProbe := none
    signTypedData := fun _ _ => { v := 27, r := 11, s := 22 }
    receiptLogs := [ { address := "0xProc", topics := [orderCreatedTopic], args := [5, 9] } ]
    orderStatusOf := fun _ => 0 }

/-- A concrete part_000 environment with no block time: its run rejects. -/
def envW000NoBlock : Env000 :=
  { envW000 with blockTime := none }

/-- A bundler oracle whose wait for the user-operation receipt times out. -/
def oracleTimeout : BundlerOracle :=
  { sendResult := Except.ok ("0xUserOpHash")
    waitResult := fun _ => Except.error ExecErr.timeoutError
    txReceiptFor := fun _ => Except.error (ExecErr.rpcError ("unused"))
    orderStatusOf := fun _ => 0 }

/-- A bundler oracle whose run succeeds with a receipt holding no logs. -/
def oracleNoLogs : BundlerOracle :=
  { sendResult := Except.ok ("0xUserOpHash")
    waitResult := fun _ => Except.ok { transactionHash := "0xTx" }
    txReceiptFor := fun _ => Except.ok { logs := [] }
    orderStatusOf := fun _ => 0 }

/-- A concrete part_001 environment whose fee quote succeeds and whose
execution times out. -/
def env001Timeout : Env001 :=
  { smartAccountAddress := "0xSA"
    assetTokenAddress := "0xAsset"
    paymentTokenAddress := "0xPay"
    orderProcessorAddress := "0xProc"
    chainId := 11155111
    requestTimestampNow := 1700000000
    orderDecimalReduction := 0
    assetTokenDecimals := 18
    quoteResult := Except.ok quoteW
    oracle := oracleTimeout }

/-- A concrete part_001 environment whose fee quote request fails. -/
def env001QuoteFail : Env001 :=
  { env001Timeout with quoteResult := Except.error ("fee quote service unavailable") }

/-- A concrete smart_account environment whose run resolves. -/
def envSmartW : EnvSmart :=
  { smartAccountAddress := "0xSA"
    paymentTokenAddress := "0xPay"
    orderProcessorAddress := "0xProc"
    chainId := 11155111
    requestTimestampNow := 1700000000
    orderDecimalReduction := 0
    assetTokenDecimals := 18
    quoteResult := Except.ok quoteW
    oracle := oracleNoLogs
    sendTokenHashResult := Except.ok ("0xSent") }

/-! Helper lemmas shared by the claim theorems. -/

/-- Characterization of a resolving part_000 run: with a block time and a
parsed OrderCreated event, main resolves with the fully determined output. -/
lemma part000Main_ok (env : Env000) (bt oid oacc : Nat)
    (hbt : env.blockTime = some bt)
    (hp : parseOrderCreated000 env.receiptLogs = Except.ok (oid, oacc)) :
    part000Main env =
      (let orderParams : OrderParams :=
        { requestTimestamp := env.requestTimestampNow
          recipient := env.signerAddress
          assetToken := env.assetTokenAddress
          paymentToken := env.paymentTokenAddress
          sell := false
          orderType := 0
          assetTokenQuantity := 0
          paymentTokenQuantity := 1000000
          price := 0
          tif := 1 }
      let fees := env.feeQuote.fee_quote.fee
      let totalSpendAmount := 1000000 + fees
      let permitDomain : PermitDomain :=
        { name := env.paymentTokenName
          version := getContractVersion env.paymentTokenVersionProbe
          chainId := env.chainId
          verifyingContract := env.paymentTokenAddress }
      let permitMessage : PermitMessage :=
        { owner := env.signerAddress
          spender := env.orderProcessorAddress
          value := totalSpendAmount
          nonce := env.nonce
          deadline := bt + 60 * 5 }
      let permitSignature := env.signTypedData permitDomain permitMessage
      let selfPermitData := Call.selfPermit env.paymentTokenAddress env.signerAddress
        totalSpendAmount (bt + 60 * 5) permitSignature.v permitSignature.r permitSignature.s
      Except.ok
        { orderParams := orderParams
          fees := fees
          totalSpendAmount := totalSpendAmount
          permitDomain := permitDomain
          permitMessage := permitMessage
          permitSignature := permitSignature
          selfPermitData := selfPermitData
          multicallBatch := [selfPermitData,
            Call.createOrder orderParams env.feeQuote.fee_quote env.feeQuote.fee_quote_signature]
          orderId := oid
          orderAccount := oacc
          orderStatus := env.orderStatusOf oid }) := by
  simp only [part000Main, configureOrder000, configurePermit, Except.map, hbt, hp]
  rfl

/-- Characterization of a resolving part_001 run: with a successful fee quote,
main resolves (whatever the execution outcome, which the try/catch swallows). -/
lemma part001Main_ok (env : Env001) (q : FeeQuoteResponse)
    (hq : env.quoteResult = Except.ok q) :
    part001Main env =
      (let orderParams : OrderParams :=
        { requestTimestamp := env.requestTimestampNow
          recipient := env.smartAccountAddress
          assetToken := env.assetTokenAddress
          paymentToken := env.paymentTokenAddress
          sell := false
          orderType := 0
          assetTokenQuantity := 0
          paymentTokenQuantity := 1000000
          price := 0
          tif := 1 }
      let totalSpendAmount := 1000000 + q.fee_quote.fee
      let transactions : List Txn :=
        [ { toAddr := env.paymentTokenAddress
            data := Call.approve env.orderProcessorAddress totalSpendAmount
            value := 0 },
          { toAddr := env.orderProcessorAddress
            data := Call.createOrder orderParams q.fee_quote q.fee_quote_signature
            value := 0 } ]
      Except.ok
        { orderParams := orderParams
          fees := q.fee_quote.fee
          totalSpendAmount := totalSpendAmount
          transactions := transactions
          executeResult := executeOrderTransaction env.oracle transactions
            env.orderProcessorAddress }) := by
  simp only [part001Main, configureOrder001, Except.map, hq]
  rfl

/-- Characterization of a resolving smart_account run with SENT_STOCKS true:
the fee quote is fetched, then sendToken's batch is submitted and the
createOrder path is never taken. -/
lemma smartMain_ok (env : EnvSmart) (q : FeeQuoteResponse)
    (hq : env.quoteResult = Except.ok q) :
    smartMain env =
      Except.ok
        { orderParams :=
            { requestTimestamp := env.requestTimestampNow
              recipient := env.smartAccountAddress
              assetToken := ASSET_TOKEN_ADDRESS
              paymentToken := env.paymentTokenAddress
              sell := false
              orderType := 0
              assetTokenQuantity := 0
              paymentTokenQuantity := 100000000
              price := 0
              tif := 1 }
          fees := q.fee_quote.fee
          totalSpendAmount := 100000000 + q.fee_quote.fee
          sentStocksTaken := true
          submittedBatch := sendTokenBatch STOCK_APPLE ISAAC_MAIN_WALLET
          sendTokenResult := some env.sendTokenHashResult
          execOutcome := none } := by
  simp only [smartMain, configureOrderSmart, Except.map, hq, SENT_STOCKS, if_true]
  rfl

/-- The effect trace of the sponsored execution is always one of four prefixes
of send, wait 60000, getTransactionReceipt, readOrderStatus. -/
lemma executeOrderTransaction_trace (o : BundlerOracle) (t : List Txn) (a : String) :
    (executeOrderTransaction o t a).1 = [Effect.sendUserOperation] ∨
    (executeOrderTransaction o t a).1 =
      [Effect.sendUserOperation, Effect.waitUserOpReceipt 60000] ∨
    (executeOrderTransaction o t a).1 =
      [Effect.sendUserOperation, Effect.waitUserOpReceipt 60000,
        Effect.getTransactionReceipt] ∨
    (executeOrderTransaction o t a).1 =
      [Effect.sendUserOperation, Effect.waitUserOpReceipt 60000,
        Effect.getTransactionReceipt, Effect.readOrderStatus] := by
  rcases hs : o.sendResult with e | h
  · simp [executeOrderTransaction, hs]
  · rcases hw : o.waitResult 60000 with e | receipt
    · simp [executeOrderTransaction, hs, hw]
    · rcases hr : o.txReceiptFor receipt.transactionHash with e | txr
      · simp [executeOrderTransaction, hs, hw, hr]
      · rcases hf : findOrderCreatedLog txr.logs a with _ | l <;>
          simp [executeOrderTransaction, hs, hw, hr, hf]

/-- The exact double product underlying BigInt(0.1 * 10 ** 18) is not an
integer: the computation passes through floating point, not exact integer
arithmetic. -/
lemma sendTokenAmountExact_not_int : ¬ ∃ n : ℤ, sendTokenAmountExact = (n : ℚ) := by
  rintro ⟨n, hn⟩
  rw [sendTokenAmountExact, double01, div_mul_eq_mul_div,
    div_eq_iff (by norm_num : ((2 : ℚ) ^ 55) ≠ 0)] at hn
  have hz : (3602879701896397 * 10 ^ 18 : ℤ) = n * 2 ^ 55 := by exact_mod_cast hn
  norm_num at hz
  omega

/-- Rounding the exact double product to the nearest representable double
yields exactly 10 ^ 17. -/
lemma sendTokenAmountDouble_eq : sendTokenAmountDouble = (100000000000000000 : ℚ) := by
  have hfloor : (⌊(sendTokenAmountExact / 16 + 1 / 2 : ℚ)⌋ : ℤ) = 6250000000000000 := by
    rw [sendTokenAmountExact, double01, Int.floor_eq_iff]
    constructor <;> norm_num
  rw [sendTokenAmountDouble, roundToMultiple, hfloor]
  norm_num

/-- The Nat amount used by sendToken agrees with the double model of
BigInt(0.1 * 10 ** 18). -/
lemma sendTokenAmount_models : (sendTokenAmount : ℚ) = sendTokenAmountDouble := by
  rw [sendTokenAmountDouble_eq, sendTokenAmount]
  norm_num

/-! Claim theorems. -/

/-- Claim C2, as stated, is false on the code: validateSellOrderPrecision
checks divisibility by 10 ^ allowedDecimalReduction, not by
10 ^ (assetDecimals − allowedDecimalReduction).  With reduction 2, asset
decimals 8 and amount 100, the amount is not divisible by 10 ^ (8 − 2), yet
the validation accepts it. -/
theorem C2_counterexample :
    (validateSellOrderPrecision 2 8 100).2 = Except.ok () ∧
    ¬ 100 % 10 ^ (8 - 2) = 0 := by
  decide

/-- Claim C2 amended: a sell order amount not divisible by
10 ^ allowedDecimalReduction is rejected with a PrecisionError naming
assetDecimals − allowedDecimalReduction as the maximum allowed decimals, and
the validation performs only the two read-only chain queries, no fee-quote
request and no transaction. -/
theorem C2_amendedPrecisionRule (r d q : Nat) (h : q % 10 ^ r ≠ 0) :
    (validateSellOrderPrecision r d q).2 =
      Except.error { maxDecimals := (d : Int) - (r : Int) } ∧
    (validateSellOrderPrecision r d q).1 =
      [Effect.readDecimalReduction, Effect.readDecimals] ∧
    (∀ e ∈ (validateSellOrderPrecision r d q).1,
      e = Effect.readDecimalReduction ∨ e = Effect.readDecimals) := by
  have hv : validateSellOrderPrecision r d q =
      ([Effect.readDecimalReduction, Effect.readDecimals],
        Except.error { maxDecimals := (d : Int) - (r : Int) }) := by
    simp only [validateSellOrderPrecision]
    rw [if_pos h]
  rw [hv]
  refine ⟨rfl, rfl, ?_⟩
  intro e he
  simpa using he

/-- Concrete witness for the amended precision rule at reduction 2, asset
decimals 8, amount 5. -/
theorem C2_amendedPrecisionRule_witness :
    (5 % 10 ^ 2 ≠ 0) ∧
    ((validateSellOrderPrecision 2 8 5).2 =
        Except.error { maxDecimals := ((8 : Nat) : Int) - ((2 : Nat) : Int) } ∧
      (validateSellOrderPrecision 2 8 5).1 =
        [Effect.readDecimalReduction, Effect.readDecimals] ∧
      (∀ e ∈ (validateSellOrderPrecision 2 8 5).1,
        e = Effect.readDecimalReduction ∨ e = Effect.readDecimals)) :=
  ⟨by decide, C2_amendedPrecisionRule 2 8 5 (by decide)⟩

/-- Claim C5, as stated, is false on the code: on the sponsored path a receipt
with no OrderCreated log does not raise any error; executeOrderTransaction
logs a message and returns normally with the noEventFound outcome. -/
theorem C5_counterexample :
    findOrderCreatedLog [] ("0xProc") = none ∧
    (executeOrderTransaction oracleNoLogs [] ("0xProc")).2 =
      Except.ok ExecOutcome.noEventFound :=
  ⟨rfl, rfl⟩

/-- Claim C6, as stated, is false on the code: sendToken in smart_account.ts
computes its token amount as BigInt(0.1 * 10 ** 18), a floating-point
computation whose exact intermediate value double01 * 10 ^ 18 is not an
integer. -/
theorem C6_counterexample :
    sendTokenAmountExact = double01 * 10 ^ 18 ∧
    ¬ ∃ n : ℤ, sendTokenAmountExact = (n : ℚ) :=
  ⟨rfl, sendTokenAmountExact_not_int⟩

/-- Claim C6 amended: the pipeline amounts are integers by construction, but
the sendToken amount is computed through floating point; its exact
intermediate value is not an integer, and the rounded double happens to be
exactly 10 ^ 17, which is the amount carried by both calls of the sendToken
batch. -/
theorem C6_amendedSendTokenFloat :
    (sendTokenAmount : ℚ) = sendTokenAmountDouble ∧
    sendTokenAmountDouble = (100000000000000000 : ℚ) ∧
    (¬ ∃ n : ℤ, sendTokenAmountExact = (n : ℚ)) ∧
    (sendTokenBatch STOCK_APPLE ISAAC_MAIN_WALLET).map (fun t => t.data) =
      [Call.approve STOCK_APPLE sendTokenAmount,
        Call.transfer ISAAC_MAIN_WALLET sendTokenAmount] :=
  ⟨sendTokenAmount_models, sendTokenAmountDouble_eq, sendTokenAmountExact_not_int, rfl⟩

/-- Claim C7: the sponsored wait for the user-operation receipt always passes
the explicit 60000 ms timeout, and when it times out the timeout error is
raised and getTransactionReceipt is never attempted. -/
theorem C7_sponsoredTimeout (oracle : BundlerOracle) (transactions : List Txn)
    (processorAddress hsh : String)
    (hsend : oracle.sendResult = Except.ok hsh)
    (hwait : oracle.waitResult 60000 = Except.error ExecErr.timeoutError) :
    executeOrderTransaction oracle transactions processorAddress =
      ([Effect.sendUserOperation, Effect.waitUserOpReceipt 60000],
        Except.error ExecErr.timeoutError) ∧
    Effect.getTransactionReceipt ∉
      (executeOrderTransaction oracle transactions processorAddress).1 ∧
    (∀ o2 : BundlerOracle, ∀ tms : Nat,
      Effect.waitUserOpReceipt tms ∈ (executeOrderTransaction o2 transactions processorAddress).1 →
      tms = 60000) := by
  have hmain : executeOrderTransaction oracle transactions processorAddress =
      ([Effect.sendUserOperation, Effect.waitUserOpReceipt 60000],
        Except.error ExecErr.timeoutError) := by
    simp [executeOrderTransaction, hsend, hwait]
  refine ⟨hmain, ?_, ?_⟩
  · rw [hmain]
    decide
  · intro o2 tms hmem
    rcases executeOrderTransaction_trace o2 transactions processorAddress with h | h | h | h <;>
      rw [h] at hmem <;> simp at hmem <;> omega

/-- Concrete witness for the sponsored timeout theorem: a bundler oracle that
times out on the wait. -/
theorem C7_sponsoredTimeout_witness :
    oracleTimeout.sendResult = Except.ok ("0xUserOpHash") ∧
    oracleTimeout.waitResult 60000 = Except.error ExecErr.timeoutError ∧
    (executeOrderTransaction oracleTimeout [] ("0xProc") =
        ([Effect.sendUserOperation, Effect.waitUserOpReceipt 60000],
          Except.error ExecErr.timeoutError) ∧
      Effect.getTransactionReceipt ∉
        (executeOrderTransaction oracleTimeout [] ("0xProc")).1 ∧
      (∀ o2 : BundlerOracle, ∀ tms : Nat,
        Effect.waitUserOpReceipt tms ∈ (executeOrderTransaction o2 [] ("0xProc")).1 →
        tms = 60000)) :=
  ⟨rfl, rfl, C7_sponsoredTimeout oracleTimeout [] ("0xProc") ("0xUserOpHash") rfl rfl⟩

/-- Claim C8, as stated, is false on the code: in part_001 an error raised
during batch execution (here a bundler timeout) is caught by the try/catch in
main, which only logs it; main resolves and the process exits 0, converting
the failure into a successful exit. -/
theorem C8_counterexample :
    (part001Main env001Timeout).map (fun o => o.executeResult.2) =
      Except.ok (Except.error ExecErr.timeoutError) ∧
    part001Exit env001Timeout = 0 :=
  ⟨rfl, rfl⟩

/-- Claim C9: all three configureOrder variants return, for every input, a
buy-side market order with sell false, orderType 0, assetTokenQuantity 0,
price 0, tif 1, performing no validation chain reads; since
validateSellOrderPrecision always performs at least one read, the sell
validation branch is unreachable. -/
theorem C9_buyOnlyBuilder (s0 a0 p0 : String) (t0 r0 d0 : Nat)
    (s1 a1 p1 : String) (t1 r1 d1 : Nat)
    (s2 p2 : String) (amt t2 r2 d2 : Nat) :
    configureOrder000 s0 a0 p0 t0 r0 d0 =
      ([], Except.ok { requestTimestamp := t0, recipient := s0, assetToken := a0,
                       paymentToken := p0, sell := false, orderType := 0,
                       assetTokenQuantity := 0, paymentTokenQuantity := 1000000,
                       price := 0, tif := 1 }) ∧
    configureOrder001 s1 a1 p1 t1 r1 d1 =
      ([], Except.ok { requestTimestamp := t1, recipient := s1, assetToken := a1,
                       paymentToken := p1, sell := false, orderType := 0,
                       assetTokenQuantity := 0, paymentTokenQuantity := 1000000,
                       price := 0, tif := 1 }) ∧
    configureOrderSmart s2 p2 amt t2 r2 d2 =
      ([], Except.ok { requestTimestamp := t2, recipient := s2,
                       assetToken := ASSET_TOKEN_ADDRESS, paymentToken := p2,
                       sell := false, orderType := 0, assetTokenQuantity := 0,
                       paymentTokenQuantity := amt, price := 0, tif := 1 }) ∧
    (∀ rr dd qq : Nat, (validateSellOrderPrecision rr dd qq).1 ≠ []) := by
  refine ⟨rfl, rfl, rfl, ?_⟩
  intro rr dd qq
  simp only [validateSellOrderPrecision]
  split <;> simp

/-- Claim C1: the total spend forwarded to the authorization and to the batch
equals paymentTokenQuantity + quote.fee as an exact arbitrary-precision sum,
on both paths; with the hardcoded quantity 1000000 and fee 2500 it equals
1002500. -/
theorem C1_totalSpendExact (env : Env000) (bt oid oacc : Nat)
    (hbt : env.blockTime = some bt)
    (hp : parseOrderCreated000 env.receiptLogs = Except.ok (oid, oacc))
    (env1 : Env001) (q1 : FeeQuoteResponse)
    (hq : env1.quoteResult = Except.ok q1) :
    (∃ out : Main000Out, part000Main env = Except.ok out ∧
      out.totalSpendAmount = out.orderParams.paymentTokenQuantity + env.feeQuote.fee_quote.fee ∧
      out.permitMessage.value = out.totalSpendAmount ∧
      out.selfPermitData.permitValue = some out.totalSpendAmount ∧
      (env.feeQuote.fee_quote.fee = 2500 → out.totalSpendAmount = 1002500)) ∧
    (∃ out1 : Main001Out, part001Main env1 = Except.ok out1 ∧
      out1.totalSpendAmount = out1.orderParams.paymentTokenQuantity + q1.fee_quote.fee ∧
      (out1.transactions.map (fun t => t.data)).head? =
        some (Call.approve env1.orderProcessorAddress out1.totalSpendAmount)) := by
  constructor
  · refine ⟨_, part000Main_ok env bt oid oacc hbt hp, rfl, rfl, rfl, ?_⟩
    intro hf
    show 1000000 + env.feeQuote.fee_quote.fee = 1002500
    rw [hf]
  · exact ⟨_, part001Main_ok env1 q1 hq, rfl, rfl⟩

/-- Concrete witness for the total-spend theorem at fee 2500. -/
theorem C1_totalSpendExact_witness :
    envW000.blockTime = some 1700000100 ∧
    parseOrderCreated000 envW000.receiptLogs = Except.ok (5, 9) ∧
    env001Timeout.quoteResult = Except.ok quoteW ∧
    ((∃ out : Main000Out, part000Main envW000 = Except.ok out ∧
      out.totalSpendAmount =
        out.orderParams.paymentTokenQuantity + envW000.feeQuote.fee_quote.fee ∧
      out.permitMessage.value = out.totalSpendAmount ∧
      out.selfPermitData.permitValue = some out.totalSpendAmount ∧
      (envW000.feeQuote.fee_quote.fee = 2500 → out.totalSpendAmount = 1002500)) ∧
    (∃ out1 : Main001Out, part001Main env001Timeout = Except.ok out1 ∧
      out1.totalSpendAmount = out1.orderParams.paymentTokenQuantity + quoteW.fee_quote.fee ∧
      (out1.transactions.map (fun t => t.data)).head? =
        some (Call.approve env001Timeout.orderProcessorAddress out1.totalSpendAmount))) :=
  ⟨rfl, rfl, rfl,
    C1_totalSpendExact envW000 1700000100 5 9 rfl rfl env001Timeout quoteW rfl⟩

/-- Claim C3: every batch submitted for order creation has exactly two calls,
the spend authorization strictly before the order creation, on the direct
multicall path and on both sponsored smart-account paths. -/
theorem C3_twoCallBatch (env : Env000) (bt oid oacc : Nat)
    (hbt : env.blockTime = some bt)
    (hp : parseOrderCreated000 env.receiptLogs = Except.ok (oid, oacc))
    (env1 : Env001) (q1 : FeeQuoteResponse) (hq : env1.quoteResult = Except.ok q1)
    (opAddr payAddr : String) (p : OrderParams) (q2 : FeeQuoteResponse) (total : Nat) :
    (∃ out : Main000Out, part000Main env = Except.ok out ∧
      out.multicallBatch.length = 2 ∧
      out.multicallBatch.map Call.isSpendAuthorization = [true, false] ∧
      out.multicallBatch.map Call.isCreateOrder = [false, true]) ∧
    (∃ out1 : Main001Out, part001Main env1 = Except.ok out1 ∧
      out1.transactions.length = 2 ∧
      out1.transactions.map (fun t => Call.isSpendAuthorization t.data) = [true, false] ∧
      out1.transactions.map (fun t => Call.isCreateOrder t.data) = [false, true]) ∧
    ((createOrderBatch opAddr payAddr p q2 total).length = 2 ∧
      (createOrderBatch opAddr payAddr p q2 total).map
        (fun t => Call.isSpendAuthorization t.data) = [true, false] ∧
      (createOrderBatch opAddr payAddr p q2 total).map
        (fun t => Call.isCreateOrder t.data) = [false, true]) := by
  refine ⟨⟨_, part000Main_ok env bt oid oacc hbt hp, rfl, rfl, rfl⟩,
    ⟨_, part001Main_ok env1 q1 hq, rfl, rfl, rfl⟩, rfl, rfl, rfl⟩

/-- Concrete witness for the two-call batch theorem. -/
theorem C3_twoCallBatch_witness :
    envW000.blockTime = some 1700000100 ∧
    parseOrderCreated000 envW000.receiptLogs = Except.ok (5, 9) ∧
    env001Timeout.quoteResult = Except.ok quoteW ∧
    ((∃ out : Main000Out, part000Main envW000 = Except.ok out ∧
      out.multicallBatch.length = 2 ∧
      out.multicallBatch.map Call.isSpendAuthorization = [true, false] ∧
      out.multicallBatch.map Call.isCreateOrder = [false, true]) ∧
    (∃ out1 : Main001Out, part001Main env001Timeout = Except.ok out1 ∧
      out1.transactions.length = 2 ∧
      out1.transactions.map (fun t => Call.isSpendAuthorization t.data) = [true, false] ∧
      out1.transactions.map (fun t => Call.isCreateOrder t.data) = [false, true]) ∧
    ((createOrderBatch ("0xProc") ("0xPay") paramsW quoteW 1002500).length = 2 ∧
      (createOrderBatch ("0xProc") ("0xPay") paramsW quoteW 1002500).map
        (fun t => Call.isSpendAuthorization t.data) = [true, false] ∧
      (createOrderBatch ("0xProc") ("0xPay") paramsW quoteW 1002500).map
        (fun t => Call.isCreateOrder t.data) = [false, true])) :=
  ⟨rfl, rfl, rfl,
    C3_twoCallBatch envW000 1700000100 5 9 rfl rfl env001Timeout quoteW rfl
      ("0xProc") ("0xPay") paramsW quoteW 1002500⟩

/-- Claim C4: on the direct path the signed permit value and the value inside
the selfPermit calldata both equal the computed total spend, and the
selfPermit call heads the multicall batch. -/
theorem C4_signedValueIsTotalSpend (env : Env000) (bt oid oacc : Nat)
    (hbt : env.blockTime = some bt)
    (hp : parseOrderCreated000 env.receiptLogs = Except.ok (oid, oacc)) :
    ∃ out : Main000Out, part000Main env = Except.ok out ∧
      out.permitMessage.value = out.totalSpendAmount ∧
      out.selfPermitData = Call.selfPermit env.paymentTokenAddress out.permitMessage.owner
        out.permitMessage.value out.permitMessage.deadline out.permitSignature.v
        out.permitSignature.r out.permitSignature.s ∧
      out.selfPermitData.permitValue = some out.totalSpendAmount ∧
      out.multicallBatch.head? = some out.selfPermitData :=
  ⟨_, part000Main_ok env bt oid oacc hbt hp, rfl, rfl, rfl, rfl⟩

/-- Concrete witness for the permit value theorem. -/
theorem C4_signedValueIsTotalSpend_witness :
    envW000.blockTime = some 1700000100 ∧
    parseOrderCreated000 envW000.receiptLogs = Except.ok (5, 9) ∧
    (∃ out : Main000Out, part000Main envW000 = Except.ok out ∧
      out.permitMessage.value = out.totalSpendAmount ∧
      out.selfPermitData = Call.selfPermit envW000.paymentTokenAddress out.permitMessage.owner
        out.permitMessage.value out.permitMessage.deadline out.permitSignature.v
        out.permitSignature.r out.permitSignature.s ∧
      out.selfPermitData.permitValue = some out.totalSpendAmount ∧
      out.multicallBatch.head? = some out.selfPermitData) :=
  ⟨rfl, rfl, C4_signedValueIsTotalSpend envW000 1700000100 5 9 rfl rfl⟩

/-- Claim C5 amended: on the direct path the logs are filtered by the
OrderCreated topic only (the emitting address is not checked); the first match
is decoded and a missing match raises the no-order-event error.  On the
sponsored path the first log matching both the processor address and the
topic is decoded, and a missing match raises nothing: the run returns
normally with the noEventFound outcome. -/
theorem C5_amendedParseBehavior (logs : List Log)
    (oracle : BundlerOracle) (transactions : List Txn) (processorAddress hsh : String)
    (uop : UserOpReceipt) (txr : TxReceipt)
    (hsend : oracle.sendResult = Except.ok hsh)
    (hwait : oracle.waitResult 60000 = Except.ok uop)
    (hrec : oracle.txReceiptFor uop.transactionHash = Except.ok txr) :
    ((logs.filter directTopicMatch).head? = none →
      parseOrderCreated000 logs = Except.error MainErr.noOrderEvent) ∧
    (∀ lf : Log, (logs.filter directTopicMatch).head? = some lf →
      parseOrderCreated000 logs = Except.ok (lf.args.getD 0 0, lf.args.getD 1 0)) ∧
    (findOrderCreatedLog txr.logs processorAddress = none →
      (executeOrderTransaction oracle transactions processorAddress).2 =
        Except.ok ExecOutcome.noEventFound) ∧
    (∀ lg : Log, findOrderCreatedLog txr.logs processorAddress = some lg →
      (executeOrderTransaction oracle transactions processorAddress).2 =
        Except.ok (ExecOutcome.parsed (lg.args.getD 0 0) (lg.args.getD 1 0)
          (oracle.orderStatusOf (lg.args.getD 0 0)))) := by
  refine ⟨?_, ?_, ?_, ?_⟩
  · intro hn
    simp [parseOrderCreated000, List.head?_map, hn]
  · intro lf hsome
    simp [parseOrderCreated000, List.head?_map, hsome]
  · intro hn
    simp [executeOrderTransaction, hsend, hwait, hrec, hn]
  · intro lg hf
    simp [executeOrderTransaction, hsend, hwait, hrec, hf]

/-- Concrete witness for the amended parse-behavior theorem: a successful
sponsored run whose receipt has no logs, and a direct receipt with one
matching log. -/
theorem C5_amendedParseBehavior_witness :
    oracleNoLogs.sendResult = Except.ok ("0xUserOpHash") ∧
    oracleNoLogs.waitResult 60000 = Except.ok { transactionHash := "0xTx" } ∧
    oracleNoLogs.txReceiptFor ("0xTx") = Except.ok { logs := [] } ∧
    (((envW000.receiptLogs.filter directTopicMatch).head? = none →
      parseOrderCreated000 envW000.receiptLogs = Except.error MainErr.noOrderEvent) ∧
    (∀ lf : Log, (envW000.receiptLogs.filter directTopicMatch).head? = some lf →
      parseOrderCreated000 envW000.receiptLogs =
        Except.ok (lf.args.getD 0 0, lf.args.getD 1 0)) ∧
    (findOrderCreatedLog (TxReceipt.mk []).logs ("0xProc") = none →
      (executeOrderTransaction oracleNoLogs [] ("0xProc")).2 =
        Except.ok ExecOutcome.noEventFound) ∧
    (∀ lg : Log, findOrderCreatedLog (TxReceipt.mk []).logs ("0xProc") = some lg →
      (executeOrderTransaction oracleNoLogs [] ("0xProc")).2 =
        Except.ok (ExecOutcome.parsed (lg.args.getD 0 0) (lg.args.getD 1 0)
          (oracleNoLogs.orderStatusOf (lg.args.getD 0 0))))) :=
  ⟨rfl, rfl, rfl,
    C5_amendedParseBehavior envW000.receiptLogs oracleNoLogs [] ("0xProc")
      ("0xUserOpHash") { transactionHash := "0xTx" } { logs := [] } rfl rfl rfl⟩

/-- Claim C8 amended: there is no internal retry; in the direct script every
error rejects main and the process exits 1; in the sponsored scripts an error
before the try-block (such as a fee-quote failure) surfaces unmodified and
exits 1, but once the fee quote succeeds main always resolves and exits 0,
even when batch execution fails — the execution error is caught and logged,
not propagated. -/
theorem C8_amendedFailureModes (env0 : Env000) (e0 : MainErr)
    (h0 : part000Main env0 = Except.error e0)
    (env1a : Env001) (es : String) (ha : env1a.quoteResult = Except.error es)
    (env1b : Env001) (qb : FeeQuoteResponse) (hb : env1b.quoteResult = Except.ok qb)
    (envS : EnvSmart) (qs : FeeQuoteResponse) (hs : envS.quoteResult = Except.ok qs) :
    part000Exit env0 = 1 ∧
    part001Main env1a = Except.error es ∧
    part001Exit env1a = 1 ∧
    part001Exit env1b = 0 ∧
    smartExit envS = 0 := by
  have hMainA : part001Main env1a = Except.error es := by
    simp [part001Main, configureOrder001, Except.map, ha]
  refine ⟨?_, hMainA, ?_, ?_, ?_⟩
  · simp only [part000Exit, h0]
  · simp only [part001Exit, hMainA]
  · simp only [part001Exit, part001Main_ok env1b qb hb]
  · simp only [smartExit, smartMain_ok envS qs hs]

/-- Concrete witness for the amended failure-mode theorem. -/
theorem C8_amendedFailureModes_witness :
    part000Main envW000NoBlock = Except.error MainErr.noBlockTime ∧
    env001QuoteFail.quoteResult = Except.error ("fee quote service unavailable") ∧
    env001Timeout.quoteResult = Except.ok quoteW ∧
    envSmartW.quoteResult = Except.ok quoteW ∧
    (part000Exit envW000NoBlock = 1 ∧
      part001Main env001QuoteFail = Except.error ("fee quote service unavailable") ∧
      part001Exit env001QuoteFail = 1 ∧
      part001Exit env001Timeout = 0 ∧
      smartExit envSmartW = 0) :=
  ⟨rfl, rfl, rfl, rfl,
    C8_amendedFailureModes envW000NoBlock MainErr.noBlockTime rfl
      env001QuoteFail ("fee quote service unavailable") rfl
      env001Timeout quoteW rfl envSmartW quoteW rfl⟩

/-- Claim C10: with SENT_STOCKS true as in the source, a resolving
smart_account run fetches the fee quote, then submits the sendToken batch
of approve(asset, amount) and transfer(recipient, amount) against the asset
argument, with amount the BigInt(0.1 * 10 ** 18) value 10 ^ 17; the
createOrder path is never executed and the fee quote is dropped unused (the
batch does not depend on it). -/
theorem C10_sentStocksSendsTokens (env : EnvSmart) (q : FeeQuoteResponse)
    (hq : env.quoteResult = Except.ok q) :
    SENT_STOCKS = true ∧
    ∃ out : SmartMainOut, smartMain env = Except.ok out ∧
      out.fees = q.fee_quote.fee ∧
      out.sentStocksTaken = true ∧
      out.submittedBatch = sendTokenBatch STOCK_APPLE ISAAC_MAIN_WALLET ∧
      out.submittedBatch =
        [ { toAddr := STOCK_APPLE, data := Call.approve STOCK_APPLE sendTokenAmount,
            value := 0 },
          { toAddr := STOCK_APPLE, data := Call.transfer ISAAC_MAIN_WALLET sendTokenAmount,
            value := 0 } ] ∧
      (∀ t ∈ out.submittedBatch, Call.isCreateOrder t.data = false) ∧
      out.execOutcome = none ∧
      sendTokenAmount = 100000000000000000 ∧
      (sendTokenAmount : ℚ) = roundToMultiple 16 (double01 * 10 ^ 18) := by
  refine ⟨rfl, ⟨_, smartMain_ok env q hq, rfl, rfl, rfl, rfl, ?_, rfl, rfl, ?_⟩⟩
  · intro t ht
    simp [sendTokenBatch] at ht
    rcases ht with h | h <;> subst h <;> rfl
  · exact sendTokenAmount_models

/-- Concrete witness for the SENT_STOCKS branch theorem. -/
theorem C10_sentStocksSendsTokens_witness :
    envSmartW.quoteResult = Except.ok quoteW ∧
    (SENT_STOCKS = true ∧
    ∃ out : SmartMainOut, smartMain envSmartW = Except.ok out ∧
      out.fees = quoteW.fee_quote.fee ∧
      out.sentStocksTaken = true ∧
      out.submittedBatch = sendTokenBatch STOCK_APPLE ISAAC_MAIN_WALLET ∧
      out.submittedBatch =
        [ { toAddr := STOCK_APPLE, data := Call.approve STOCK_APPLE sendTokenAmount,
            value := 0 },
          { toAddr := STOCK_APPLE, data := Call.transfer ISAAC_MAIN_WALLET sendTokenAmount,
            value := 0 } ] ∧
      (∀ t ∈ out.submittedBatch, Call.isCreateOrder t.data = false) ∧
      out.execOutcome = none ∧
      sendTokenAmount = 100000000000000000 ∧
      (sendTokenAmount : ℚ) = roundToMultiple 16 (double01 * 10 ^ 18)) :=
  ⟨rfl, C10_sentStocksSendsTokens envSmartW quoteW rfl⟩

end Scripts
